import Mathlib

/-!
Shallow embedding of the wallcraft-go-test-task HTTP service:
the Postgres queries of `query.sql` (executed against the schema of
`schema.sql`, whose foreign-key and check constraints are part of the
statement semantics), and the Go entity handlers of
`handlers/invoice.go`, `handlers/customer.go` (second document of
`handlers/invoice.go` in this source drop) and `handlers/product.go`.

Machine integers (`int32`, `int`) are modelled as `Int`; timestamps as
`Int` (the Go zero time instant is `0`); Postgres `numeric(10,2)` as an
`Int` count of hundredths.  Fallible store calls return `Except`.
-/

/-- A JSON value, as produced by Go's `encoding/json`. -/
inductive Json where
  | null
  | str (s : String)
  | num (n : Int)
  | arr (elems : List Json)
  | obj (fields : List (String × Json))

/-- The observable outcome a handler writes to the `http.ResponseWriter`:
either a JSON body with a status code (`writeServerResponse`), a plain-text
error with a status code (`http.Error`), or a bare `204 No Content`
(`w.WriteHeader(http.StatusNoContent)`). -/
inductive HandlerOutcome where
  | response (status : Nat) (body : Json)
  | errorText (status : Nat) (msg : String)
  | noContent

/-- HTTP method of the inbound request. -/
inductive Method where
  | get
  | post
  | patch
  | delete
  | other
deriving DecidableEq

/-- A `*pq.Error` as observed by the handlers: the SQLSTATE code and the
name of the violated constraint (`pqErr.Code`, `pqErr.Constraint`). -/
structure PgError where
  code : String
  constraint : String
deriving DecidableEq

/-- The `database/sql` sentinel errors a handler distinguishes:
`sql.ErrNoRows` versus anything else. -/
inductive SqlError where
  | noRows
  | other
deriving DecidableEq

/-- Row of the `customer` table (`schema.sql`). -/
structure Customer where
  id : Int
  firstName : String
  lastName : String
deriving DecidableEq

/-- Row of the `product` table (`schema.sql`); `price` is `numeric(10,2)`
modelled as hundredths, `description` is nullable. -/
structure Product where
  id : Int
  name : String
  description : Option String
  price : Int
  availableItems : Int
deriving DecidableEq

/-- Row of the `invoice` table (`schema.sql`). -/
structure Invoice where
  id : Int
  invoiceNumber : String
  invoiceDate : Int
  customerId : Int
deriving DecidableEq

/-- Row of the `invoice_item` table (`schema.sql`). -/
structure InvoiceItem where
  id : Int
  invoiceId : Int
  productId : Int
  count : Int
deriving DecidableEq

/-- The database state: the four tables plus the `SERIAL` sequences the
insert statements draw fresh ids from (only the two sequences an embedded
insert needs are carried). -/
structure DB where
  customers : List Customer
  products : List Product
  invoices : List Invoice
  invoiceItems : List InvoiceItem
  invoiceSeq : Int
  itemSeq : Int
deriving DecidableEq

/-- `SELECT EXISTS(SELECT 1 FROM customer WHERE id = $1)`. -/
def customerRowExists (db : DB) (cid : Int) : Bool :=
  db.customers.any (fun c => c.id == cid)

/-- `SELECT EXISTS(SELECT 1 FROM product WHERE id = $1)`. -/
def productRowExists (db : DB) (pid : Int) : Bool :=
  db.products.any (fun p => p.id == pid)

/-- `SELECT EXISTS(SELECT 1 FROM invoice WHERE id = $1)`. -/
def invoiceRowExists (db : DB) (iid : Int) : Bool :=
  db.invoices.any (fun i => i.id == iid)

/-- Whether some invoice row references customer `cid`
(the dependent-row condition of the `invoice_customer_id_fkey`
foreign key of `schema.sql`). -/
def customerHasInvoice (db : DB) (cid : Int) : Bool :=
  db.invoices.any (fun i => i.customerId == cid)

/-- Whether some invoice_item row references product `pid`
(`invoice_item_product_id_fkey`). -/
def productHasInvoiceItem (db : DB) (pid : Int) : Bool :=
  db.invoiceItems.any (fun it => it.productId == pid)

/-- Whether some invoice_item row references invoice `iid`
(`invoice_item_invoice_id_fkey`). -/
def invoiceHasInvoiceItem (db : DB) (iid : Int) : Bool :=
  db.invoiceItems.any (fun it => it.invoiceId == iid)

/-- Whether some invoice row carries the invoice number `num`
(the `UNIQUE` constraint on `invoice.invoice_number`). -/
def invoiceNumberTaken (db : DB) (num : String) : Bool :=
  db.invoices.any (fun i => i.invoiceNumber == num)

/-- The `(invoice_id, product_id)` match predicate of the queries on
`invoice_item` (the `UNIQUE (invoice_id, product_id)` conflict target). -/
def isPair (invId prodId : Int) (it : InvoiceItem) : Bool :=
  it.invoiceId == invId && it.productId == prodId

/-- `ORDER BY` on an integer key: a stable sort, as Postgres performs. -/
def orderByKey (key : α → Int) (l : List α) : List α :=
  l.insertionSort (fun a b => key a ≤ key b)

/-- `ListCustomers` of `query.sql`:
`SELECT * FROM customer ORDER BY id LIMIT 100`. -/
def listCustomers (db : DB) : List Customer :=
  (orderByKey (fun c => c.id) db.customers).take 100

/-- `ListProducts` of `query.sql`:
`SELECT * FROM product ORDER BY id LIMIT 100`. -/
def listProducts (db : DB) : List Product :=
  (orderByKey (fun p => p.id) db.products).take 100

/-- `ListInvoices` of `query.sql`:
`SELECT * FROM invoice ORDER BY id LIMIT 100`. -/
def listInvoices (db : DB) : List Invoice :=
  (orderByKey (fun i => i.id) db.invoices).take 100

/-- One row of the `ListProductsFromInvoice` result set:
product id, name, description, price, the line count, and the computed
`CAST((p.price * ii.count) AS numeric(10,2))` sum. -/
structure InvoiceProductRow where
  id : Int
  name : String
  description : Option String
  price : Int
  count : Int
  sum : Int
deriving DecidableEq

/-- `ListProductsFromInvoice` of `query.sql`: the inner join of
`invoice_item` and `product` restricted to `ii.invoice_id = $1`,
ordered by `p.id`, `LIMIT 100`.  The query contains no invoice-existence
check: it filters `invoice_item` rows only. -/
def listProductsFromInvoice (db : DB) (invId : Int) : List InvoiceProductRow :=
  (orderByKey (fun r => r.id)
    ((db.invoiceItems.filter (fun it => it.invoiceId == invId)).filterMap
      (fun it =>
        (db.products.find? (fun p => p.id == it.productId)).map
          (fun p => ⟨p.id, p.name, p.description, p.price, it.count, p.price * it.count⟩)))).take 100

/-- The sqlc-generated store call for the `:many` query
`ListProductsFromInvoice`: a `:many` query iterates the result rows and
returns the slice; when no row matches it returns an empty slice with a
nil error, never `sql.ErrNoRows` (that sentinel is produced only by
`QueryRow`, i.e. `:one` queries). -/
def listProductsFromInvoiceStore (db : DB) (invId : Int) :
    Except SqlError (List InvoiceProductRow) :=
  .ok (listProductsFromInvoice db invId)

/-- `DeleteCustomer` of `query.sql` executed under the schema's foreign
keys: the single statement checks existence in a CTE and deletes; if the
row exists and an invoice references it, the `DELETE` raises the
foreign-key violation `invoice_customer_id_fkey` (SQLSTATE 23503) and the
statement leaves the database unchanged; otherwise it returns the result
string of the `CASE` expression. -/
def deleteCustomer (db : DB) (cid : Int) : Except PgError (String × DB) :=
  if customerRowExists db cid = false then .ok ("customer_not_found", db)
  else if customerHasInvoice db cid then .error ⟨"23503", "invoice_customer_id_fkey"⟩
  else .ok ("success",
    { db with customers := db.customers.filter (fun c => !(c.id == cid)) })

/-- `DeleteProduct` of `query.sql` under the schema's foreign keys
(dependent rows live in `invoice_item` via `invoice_item_product_id_fkey`). -/
def deleteProduct (db : DB) (pid : Int) : Except PgError (String × DB) :=
  if productRowExists db pid = false then .ok ("product_not_found", db)
  else if productHasInvoiceItem db pid then .error ⟨"23503", "invoice_item_product_id_fkey"⟩
  else .ok ("success",
    { db with products := db.products.filter (fun p => !(p.id == pid)) })

/-- `DeleteInvoice` of `query.sql` under the schema's foreign keys
(dependent rows live in `invoice_item` via `invoice_item_invoice_id_fkey`). -/
def deleteInvoice (db : DB) (iid : Int) : Except PgError (String × DB) :=
  if invoiceRowExists db iid = false then .ok ("invoice_not_found", db)
  else if invoiceHasInvoiceItem db iid then .error ⟨"23503", "invoice_item_invoice_id_fkey"⟩
  else .ok ("success",
    { db with invoices := db.invoices.filter (fun i => !(i.id == iid)) })

/-- `DeleteProductFromInvoice` of `query.sql`: atomic pair-existence check
then delete on `invoice_item`; nothing references `invoice_item`, so no
foreign-key error can arise. -/
def deleteProductFromInvoice (db : DB) (invId prodId : Int) :
    Except PgError (String × DB) :=
  if db.invoiceItems.any (isPair invId prodId) = false then
    .ok ("invoice_item_not_found", db)
  else .ok ("success",
    { db with invoiceItems := db.invoiceItems.filter (fun it => !(isPair invId prodId it)) })

/-- `AddProductToInvoice` of `query.sql` under the schema's constraints:
`INSERT ... ON CONFLICT (invoice_id, product_id) DO UPDATE SET count =
EXCLUDED.count RETURNING *`.  The `CHECK (count > 0)` constraint of
`schema.sql` is verified on the written row; on conflict the existing
row's `count` is replaced (foreign keys already hold for it); on a fresh
insert the two foreign keys are checked and a fresh `SERIAL` id drawn. -/
def addProductToInvoice (db : DB) (invId prodId cnt : Int) :
    Except PgError (InvoiceItem × DB) :=
  if cnt ≤ 0 then .error ⟨"23514", "invoice_item_count_check"⟩
  else
    match db.invoiceItems.find? (isPair invId prodId) with
    | some it =>
        let upd := db.invoiceItems.map
          (fun x => if isPair invId prodId x then { x with count := cnt } else x)
        .ok ({ it with count := cnt }, { db with invoiceItems := upd })
    | none =>
        if invoiceRowExists db invId = false then
          .error ⟨"23503", "invoice_item_invoice_id_fkey"⟩
        else if productRowExists db prodId = false then
          .error ⟨"23503", "invoice_item_product_id_fkey"⟩
        else
          .ok (⟨db.itemSeq, invId, prodId, cnt⟩,
            { db with
                invoiceItems := db.invoiceItems ++ [⟨db.itemSeq, invId, prodId, cnt⟩],
                itemSeq := db.itemSeq + 1 })

/-- `CreateInvoice` of `query.sql` under the schema's constraints: the
`UNIQUE` constraint on `invoice_number` (SQLSTATE 23505) and the
`invoice_customer_id_fkey` foreign key (SQLSTATE 23503), then a plain
insert with a fresh `SERIAL` id. -/
def createInvoice (db : DB) (num : String) (date : Int) (cid : Int) :
    Except PgError (Invoice × DB) :=
  if invoiceNumberTaken db num then .error ⟨"23505", "invoice_invoice_number_key"⟩
  else if customerRowExists db cid = false then .error ⟨"23503", "invoice_customer_id_fkey"⟩
  else
    .ok (⟨db.invoiceSeq, num, date, cid⟩,
      { db with
          invoices := db.invoices ++ [⟨db.invoiceSeq, num, date, cid⟩],
          invoiceSeq := db.invoiceSeq + 1 })

/-- A Go slice value: `none` is the nil slice, `some xs` a non-nil slice
with elements `xs`.  `encoding/json` marshals a nil slice as `null` and a
non-nil slice as an array. -/
def GoSlice (α : Type) : Type := Option (List α)

/-- Go's `append(s, x)`: the result is always a non-nil slice. -/
def goAppend (s : GoSlice α) (x : α) : GoSlice α :=
  some ((Option.getD s []) ++ [x])

/-- Appending every element of `xs` in turn, as the handlers' `for ... append` loops do. -/
def goAppendList (s : GoSlice α) (xs : List α) : GoSlice α :=
  xs.foldl goAppend s

/-- `encoding/json` marshalling of a slice: `null` for the nil slice,
a JSON array otherwise. -/
def encodeGoSlice (s : GoSlice Json) : Json :=
  match s with
  | none => Json.null
  | some xs => Json.arr xs

/-- The white-space predicate of Go's `strings.TrimSpace` (the ASCII
white-space characters this service can meet). -/
def isSpaceGo (c : Char) : Bool :=
  c == ' ' || c == '\t' || c == '\n' || c == '\r'

/-- Go's `strings.TrimSpace`: leading and trailing white space removed. -/
def trimSpaceGo (s : String) : String :=
  ⟨((s.data.dropWhile isSpaceGo).reverse.dropWhile isSpaceGo).reverse⟩

/-- Splitting a character list at every occurrence of `sep`, accumulating
the current chunk in reverse — the semantics of Go's `strings.Split` on a
one-character separator. -/
def splitChars (sep : Char) : List Char → List Char → List (List Char)
  | [], acc => [acc.reverse]
  | c :: rest, acc =>
      if c == sep then acc.reverse :: splitChars sep rest []
      else splitChars sep rest (c :: acc)

/-- Go's `strings.Split(s, sep)` for a one-character separator. -/
def splitStringGo (sep : Char) (s : String) : List String :=
  (splitChars sep s.data []).map (fun cs => ⟨cs⟩)

/-- `strconv.Atoi`: an optional sign followed by a non-empty run of
decimal digits (overflow ignored; the ids in play are small). -/
def parseIntGo (s : String) : Option Int :=
  let digitsVal : List Char → Option Nat := fun cs =>
    if !cs.isEmpty && cs.all Char.isDigit then
      some (cs.foldl (fun n c => n * 10 + (c.toNat - 48)) 0)
    else none
  match s.data with
  | '-' :: rest => (digitsVal rest).map (fun n => -(n : Int))
  | '+' :: rest => (digitsVal rest).map (fun n => (n : Int))
  | cs => (digitsVal cs).map (fun n => (n : Int))

/-- `strconv.ParseFloat` acceptance, restricted to the plain decimal forms
(optional sign, digits with an optional fractional part, optional decimal
exponent) that suffice for this service's price strings. -/
def parseFloatOkGo (s : String) : Bool :=
  let allDigits : List Char → Bool := fun cs => cs.all Char.isDigit
  let mantissaOk : List Char → Bool := fun m =>
    match splitChars '.' m [] with
    | [a] => !a.isEmpty && allDigits a
    | [a, b] => (!a.isEmpty || !b.isEmpty) && allDigits a && allDigits b
    | _ => false
  let exponentOk : List Char → Bool := fun e =>
    match e with
    | '-' :: t => !t.isEmpty && allDigits t
    | '+' :: t => !t.isEmpty && allDigits t
    | t => !t.isEmpty && allDigits t
  let body : List Char → Bool := fun t =>
    match splitChars 'e' t [] with
    | [m] => mantissaOk m
    | [m, e] => mantissaOk m && exponentOk e
    | _ => false
  match s.data with
  | '-' :: t => body t
  | '+' :: t => body t
  | t => body t

/-- Go `http.Error(w, config.InternalServerErrorMsg, 500)` via
`writeInternalServerError`. -/
def internalError : HandlerOutcome :=
  HandlerOutcome.errorText 500 "Internal server error"

/-- JSON body of a `customerResponse` (`handlers/customer.go`). -/
def customerToJson (c : Customer) : Json :=
  Json.obj [("id", Json.num c.id), ("first_name", Json.str c.firstName),
    ("last_name", Json.str c.lastName)]

/-- JSON body of a `productResponse` (`handlers/product.go`);
`Description.String` of a null `sql.NullString` is the empty string. -/
def productToJson (p : Product) : Json :=
  Json.obj [("id", Json.num p.id), ("name", Json.str p.name),
    ("description", Json.str (p.description.getD "")),
    ("price", Json.num p.price), ("available_items", Json.num p.availableItems)]

/-- JSON body of an `invoiceResponse` (`handlers/invoice.go`). -/
def invoiceToJson (i : Invoice) : Json :=
  Json.obj [("id", Json.num i.id), ("invoice_number", Json.str i.invoiceNumber),
    ("invoice_date", Json.num i.invoiceDate), ("customer_id", Json.num i.customerId)]

/-- JSON body of an `invoiceItemResponse` (`handlers/invoice.go`). -/
def invoiceItemToJson (it : InvoiceItem) : Json :=
  Json.obj [("id", Json.num it.id), ("invoice_id", Json.num it.invoiceId),
    ("product_id", Json.num it.productId), ("count", Json.num it.count)]

/-- JSON body of an `invoiceProductResponse` (`handlers/invoice.go`). -/
def invoiceProductToJson (r : InvoiceProductRow) : Json :=
  Json.obj [("id", Json.num r.id), ("name", Json.str r.name),
    ("description", Json.str (r.description.getD "")),
    ("price", Json.num r.price), ("count", Json.num r.count),
    ("sum", Json.num r.sum)]

/-- The response body a list handler builds: it starts from the non-nil
empty slice literal (`response := []xResponse{}`), appends one encoded
row per store row, and JSON-encodes the slice. -/
def listResponseBody (rows : List Json) : Json :=
  encodeGoSlice (goAppendList (some []) rows)

/-- `GET /customers` branch of `CustomersHandler`. -/
def customersListHandler (db : DB) : HandlerOutcome :=
  HandlerOutcome.response 200 (listResponseBody ((listCustomers db).map customerToJson))

/-- `GET /products` branch of `ProductsHandler`. -/
def productsListHandler (db : DB) : HandlerOutcome :=
  HandlerOutcome.response 200 (listResponseBody ((listProducts db).map productToJson))

/-- `GET /invoices` branch of `InvoicesHandler`. -/
def invoicesListHandler (db : DB) : HandlerOutcome :=
  HandlerOutcome.response 200 (listResponseBody ((listInvoices db).map invoiceToJson))

/-- `GET /invoices/{invoice_id}/products` branch of `InvoiceHandler`
(`handlers/invoice.go` lines 186–211): a store error equal to
`sql.ErrNoRows` is answered 404 "Invoice not found", any other store
error 500, and a row slice is encoded as a 200 JSON array. -/
def invoiceRelationListHandler (db : DB) (invId : Int) : HandlerOutcome :=
  match listProductsFromInvoiceStore db invId with
  | .error e =>
      if e = SqlError.noRows then HandlerOutcome.errorText 404 "Invoice not found"
      else internalError
  | .ok items =>
      HandlerOutcome.response 200 (listResponseBody (items.map invoiceProductToJson))

/-- Mapping of the `DeleteCustomer` result string
(`handlers/customer.go`, DELETE branch tail). -/
def customerDeleteResult (result : String) : HandlerOutcome :=
  if result == "customer_not_found" then HandlerOutcome.errorText 404 "Customer not found"
  else HandlerOutcome.noContent

/-- Mapping of the `DeleteProduct` result string
(`handlers/product.go`, DELETE branch tail). -/
def productDeleteResult (result : String) : HandlerOutcome :=
  if result == "product_not_found" then HandlerOutcome.errorText 404 "Product not found"
  else HandlerOutcome.noContent

/-- Mapping of the `DeleteInvoice` result string
(`handlers/invoice.go`, DELETE `/invoices/{id}` branch tail). -/
def invoiceDeleteResult (result : String) : HandlerOutcome :=
  if result == "invoice_not_found" then HandlerOutcome.errorText 404 "Invoice not found"
  else HandlerOutcome.noContent

/-- Mapping of the `DeleteProductFromInvoice` result string: the Go
`switch` answers 404 for `invoice_item_not_found` and 204 otherwise
(`handlers/invoice.go` lines 225–230). -/
def invoiceItemDeleteResult (result : String) : HandlerOutcome :=
  if result == "invoice_item_not_found" then
    HandlerOutcome.errorText 404 "Provided invoice doesn't contain the specified product"
  else HandlerOutcome.noContent

/-- Error classification of the DELETE `/customers/{id}` branch: a
foreign-key violation (code 23503) on `invoice_customer_id_fkey` is a 409
conflict, everything else 500. -/
def classifyDeleteCustomerError (e : PgError) : HandlerOutcome :=
  if e.code == "23503" then
    if e.constraint == "invoice_customer_id_fkey" then
      HandlerOutcome.errorText 409
        "cannot delete customer: customer is referenced in the invoice table"
    else internalError
  else internalError

/-- Error classification of the DELETE `/products/{id}` branch. -/
def classifyDeleteProductError (e : PgError) : HandlerOutcome :=
  if e.code == "23503" then
    if e.constraint == "invoice_item_product_id_fkey" then
      HandlerOutcome.errorText 409
        "cannot delete product: product is referenced in the invoice_item table"
    else internalError
  else internalError

/-- Error classification of the DELETE `/invoices/{id}` branch. -/
def classifyDeleteInvoiceError (e : PgError) : HandlerOutcome :=
  if e.code == "23503" then
    if e.constraint == "invoice_item_invoice_id_fkey" then
      HandlerOutcome.errorText 409
        "cannot delete invoice: invoice is referenced in the invoice_item table"
    else internalError
  else internalError

/-- DELETE `/customers/{id}`: store call, error classification, result
mapping.  The pair returned is the written response and the database
state after the request. -/
def customerDeleteHandler (db : DB) (cid : Int) : HandlerOutcome × DB :=
  match deleteCustomer db cid with
  | .error e => (classifyDeleteCustomerError e, db)
  | .ok (result, db2) => (customerDeleteResult result, db2)

/-- DELETE `/products/{id}`. -/
def productDeleteHandler (db : DB) (pid : Int) : HandlerOutcome × DB :=
  match deleteProduct db pid with
  | .error e => (classifyDeleteProductError e, db)
  | .ok (result, db2) => (productDeleteResult result, db2)

/-- DELETE `/invoices/{id}`. -/
def invoiceDeleteHandler (db : DB) (iid : Int) : HandlerOutcome × DB :=
  match deleteInvoice db iid with
  | .error e => (classifyDeleteInvoiceError e, db)
  | .ok (result, db2) => (invoiceDeleteResult result, db2)

/-- Error classification of the POST `/invoices/{id}/products/{pid}`
branch (`handlers/invoice.go` lines 249–274): a foreign-key violation is
mapped by constraint name (product fkey and invoice fkey each to their
own 404 message); any other pq error is 400 exactly when its constraint
is `invoice_item_count_check`; anything else 500. -/
def classifyAddProductToInvoiceError (e : PgError) : HandlerOutcome :=
  if e.code == "23503" then
    if e.constraint == "invoice_item_product_id_fkey" then
      HandlerOutcome.errorText 404 "The provided product does not exist"
    else if e.constraint == "invoice_item_invoice_id_fkey" then
      HandlerOutcome.errorText 404 "The provided invoice does not exist"
    else internalError
  else if e.constraint == "invoice_item_count_check" then
    HandlerOutcome.errorText 400 "count must be greater than 0"
  else internalError

/-- POST `/invoices/{invoice_id}/products/{product_id}`: the handler
rejects `count <= 0` before calling the store, then classifies store
errors by constraint identity, and answers 201 with the upserted row. -/
def invoiceItemUpsertHandler (db : DB) (invId prodId cnt : Int) : HandlerOutcome × DB :=
  if cnt ≤ 0 then (HandlerOutcome.errorText 400 "count must be greater than 0", db)
  else
    match addProductToInvoice db invId prodId cnt with
    | .error e => (classifyAddProductToInvoiceError e, db)
    | .ok (it, db2) => (HandlerOutcome.response 201 (invoiceItemToJson it), db2)

/-- DELETE `/invoices/{invoice_id}/products/{product_id}`. -/
def invoiceItemDeleteHandler (db : DB) (invId prodId : Int) : HandlerOutcome × DB :=
  match deleteProductFromInvoice db invId prodId with
  | .error _ => (internalError, db)
  | .ok (result, db2) => (invoiceItemDeleteResult result, db2)

/-- Error classification of the POST `/invoices` branch
(`handlers/invoice.go` lines 117–135): the switch is on the SQLSTATE code
only — 23505 is a 409 duplicate, 23503 a 400 missing customer. -/
def classifyCreateInvoiceError (e : PgError) : HandlerOutcome :=
  if e.code == "23505" then HandlerOutcome.errorText 409 "Invoice number must be unique"
  else if e.code == "23503" then
    HandlerOutcome.errorText 400 "Specified customer does not exist"
  else internalError

/-- The decoded body of POST `/invoices` (`createInvoiceRequest`):
`invoice_date` is a nullable timestamp pointer. -/
structure CreateInvoiceReq where
  invoiceNumber : String
  invoiceDate : Option Int
  customerId : Int

/-- POST `/invoices` (`handlers/invoice.go` lines 87–143): pre-validation
of the invoice number and customer id, the invoice-date default
(`time.Now()` is `now`; a nil pointer or the zero time means omitted),
the store call, and the error classification. -/
def invoicesCreateHandler (db : DB) (now : Int) (req : CreateInvoiceReq) :
    HandlerOutcome × DB :=
  if trimSpaceGo req.invoiceNumber == "" then
    (HandlerOutcome.errorText 400 "invoice_number must not be empty", db)
  else if req.customerId ≤ 0 then
    (HandlerOutcome.errorText 400 "customer_id should be a positive number", db)
  else
    let invoiceDate :=
      match req.invoiceDate with
      | some d => if d == 0 then now else d
      | none => now
    match createInvoice db req.invoiceNumber invoiceDate req.customerId with
    | .error e => (classifyCreateInvoiceError e, db)
    | .ok (inv, db2) => (HandlerOutcome.response 201 (invoiceToJson inv), db2)

/-- The decoded body of POST/PATCH `/products`
(`createProductRequest` / `updateProductRequest`). -/
structure ProductReq where
  name : String
  description : String
  price : String
  availableItems : Int

/-- Pre-validation of a product payload, shared verbatim by the POST and
PATCH branches of `handlers/product.go`: the message of the first failing
check, or `none` when the payload passes. -/
def productPreValidate (req : ProductReq) : Option String :=
  if trimSpaceGo req.name == "" then some "Product name is required"
  else if trimSpaceGo req.price == "" then some "Product price is required"
  else if parseFloatOkGo req.price = false then some "Invalid price"
  else if req.availableItems < 0 then
    some "available_items must be greater than or equal to 0"
  else none

/-- Error classification of the POST `/products` branch
(`handlers/product.go` lines 101–113): both check constraints are mapped
to 400, by constraint name. -/
def classifyCreateProductError (e : PgError) : HandlerOutcome :=
  if e.constraint == "product_available_items_check" then
    HandlerOutcome.errorText 400 "available_items must be greater than or equal to 0"
  else if e.constraint == "product_price_check" then
    HandlerOutcome.errorText 400 "price should be a positive number"
  else internalError

/-- Error classification of the PATCH `/products/{id}` branch
(`handlers/product.go` lines 190–195): only the `available_items` check
constraint is mapped to 400; any other pq error — the price check
constraint included — falls through to 500. -/
def classifyUpdateProductError (e : PgError) : HandlerOutcome :=
  if e.constraint == "product_available_items_check" then
    HandlerOutcome.errorText 400 "available_items must be greater than or equal to 0"
  else internalError

/-- A database with customer 1, an invoice with id 2 (and no line items),
and no invoice with id 1. -/
def dbNoInvoiceOne : DB :=
  ⟨[⟨1, "Jarred", "Black"⟩], [], [⟨2, "INV-2", 5, 1⟩], [], 3, 1⟩


/-- A database in which customer 1 has an invoice, product 1 and invoice 1
have an invoice item, so every delete is blocked. -/
def dbAllReferenced : DB :=
  ⟨[⟨1, "Jarred", "Black"⟩], [⟨1, "Mouse", none, 22200, 22⟩],
    [⟨1, "INV-1", 7, 1⟩], [⟨1, 1, 1, 5⟩], 2, 2⟩


/-- A database with customer 1 and invoice 1 but no products and no line
items. -/
def dbInvoiceNoProduct : DB :=
  ⟨[⟨1, "Jarred", "Black"⟩], [], [⟨1, "INV-1", 7, 1⟩], [], 2, 1⟩


/-- The Go loop of `InvoiceHandler` locating the first `"invoices"`
segment of the split path. -/
def findInvoicesIdx : List String → Option Nat
  | [] => none
  | s :: rest =>
      if s == "invoices" then some 0
      else (findInvoicesIdx rest).map (fun n => n + 1)

/-- The typed route `InvoiceHandler` ultimately acts on: each constructor
is one of the mutually exclusive branches of the Go function (the three
400 identifier errors, the relation operations, the single-invoice
operations, 405, and the 404 of an over-long products path). -/
inductive InvoiceDispatch where
  | invalidPath
  | invalidInvoiceId
  | invalidProductId
  | relationList (invId : Int)
  | relationUpsert (invId prodId : Int)
  | relationRemove (invId prodId : Int)
  | itemGet (invId : Int)
  | itemPatch (invId : Int)
  | itemDelete (invId : Int)
  | methodNotAllowed
  | notFound
deriving DecidableEq

/-- The path/method resolution of `InvoiceHandler`
(`handlers/invoice.go` lines 149–293) on the already-split non-empty
segments: find `"invoices"`, parse the next segment as the invoice id,
branch on a following `"products"` segment and the exact segment count,
and otherwise fall through to the single-invoice method switch. -/
def dispatchInvoiceSegs (method : Method) (segments : List String) : InvoiceDispatch :=
  match findInvoicesIdx segments with
  | none => InvoiceDispatch.invalidPath
  | some i =>
    if segments.length ≤ i + 1 then InvoiceDispatch.invalidPath
    else
      match parseIntGo (segments.getD (i + 1) "") with
      | none => InvoiceDispatch.invalidInvoiceId
      | some invId =>
        if i + 2 < segments.length ∧ segments.getD (i + 2) "" = "products" then
          if segments.length = i + 3 then
            match method with
            | Method.get => InvoiceDispatch.relationList invId
            | _ => InvoiceDispatch.methodNotAllowed
          else if segments.length = i + 4 then
            match parseIntGo (segments.getD (i + 3) "") with
            | none => InvoiceDispatch.invalidProductId
            | some prodId =>
              match method with
              | Method.delete => InvoiceDispatch.relationRemove invId prodId
              | Method.post => InvoiceDispatch.relationUpsert invId prodId
              | _ => InvoiceDispatch.methodNotAllowed
          else InvoiceDispatch.notFound
        else
          match method with
          | Method.get => InvoiceDispatch.itemGet invId
          | Method.patch => InvoiceDispatch.itemPatch invId
          | Method.delete => InvoiceDispatch.itemDelete invId
          | _ => InvoiceDispatch.methodNotAllowed

/-- The full resolution from the raw request path: split on `/`, drop the
empty segments, dispatch. -/
def dispatchInvoicePath (method : Method) (path : String) : InvoiceDispatch :=
  dispatchInvoiceSegs method ((splitStringGo '/' path).filter (fun s => !(s == "")))

/-- A database with customer 1, product 1 and invoice 1 but no line
items yet. -/
def dbUpsertReady : DB :=
  ⟨[⟨1, "Jarred", "Black"⟩], [⟨1, "Mouse", none, 22200, 22⟩],
    [⟨1, "INV-1", 7, 1⟩], [], 2, 1⟩

theorem orderByKey_pairwise (key : α → Int) (l : List α) :
    (orderByKey key l).Pairwise (fun a b => key a ≤ key b) := by
  haveI : IsTotal α (fun a b => key a ≤ key b) := ⟨fun a b => le_total (key a) (key b)⟩
  haveI : IsTrans α (fun a b => key a ≤ key b) := ⟨fun a b c hab hbc => le_trans hab hbc⟩
  exact List.sorted_insertionSort _ l

theorem orderByKey_take_pairwise (key : α → Int) (l : List α) (n : Nat) :
    ((orderByKey key l).take n).Pairwise (fun a b => key a ≤ key b) :=
  (orderByKey_pairwise key l).sublist (List.take_sublist _ _)

theorem goAppendList_some (init : List α) (xs : List α) :
    goAppendList (some init) xs = some (init ++ xs) := by
  induction xs generalizing init with
  | nil => simp [goAppendList]
  | cons x xs ih =>
      simp only [goAppendList, List.foldl_cons] at *
      rw [show goAppend (some init) x = some (init ++ [x]) from rfl, ih]
      simp

theorem listResponseBody_eq (rows : List Json) :
    listResponseBody rows = Json.arr rows := by
  simp [listResponseBody, goAppendList_some, encodeGoSlice]

/-- C8: each entity List operation returns at most 100 rows, ordered by
ascending id. -/
theorem claim_C8_list_cap_and_order (db : DB) :
    ((listCustomers db).length ≤ 100 ∧
      (listCustomers db).Pairwise (fun a b => a.id ≤ b.id)) ∧
    ((listProducts db).length ≤ 100 ∧
      (listProducts db).Pairwise (fun a b => a.id ≤ b.id)) ∧
    ((listInvoices db).length ≤ 100 ∧
      (listInvoices db).Pairwise (fun a b => a.id ≤ b.id)) := by
  refine ⟨⟨?_, ?_⟩, ⟨?_, ?_⟩, ⟨?_, ?_⟩⟩ <;>
    first
      | exact List.length_take_le _ _
      | exact orderByKey_take_pairwise _ _ _

/-- C9: every successful List response (the three entity lists and the
invoice relation list) carries a JSON array body — built from the non-nil
empty slice literal — and on zero store rows that body is the empty array
`[]`, never JSON `null`. -/
theorem claim_C9_list_body_is_array (db : DB) (invId : Int) :
    (customersListHandler db =
        HandlerOutcome.response 200 (Json.arr ((listCustomers db).map customerToJson)) ∧
      (db.customers = [] →
        customersListHandler db = HandlerOutcome.response 200 (Json.arr [])) ∧
      customersListHandler db ≠ HandlerOutcome.response 200 Json.null) ∧
    (productsListHandler db =
        HandlerOutcome.response 200 (Json.arr ((listProducts db).map productToJson)) ∧
      (db.products = [] →
        productsListHandler db = HandlerOutcome.response 200 (Json.arr [])) ∧
      productsListHandler db ≠ HandlerOutcome.response 200 Json.null) ∧
    (invoicesListHandler db =
        HandlerOutcome.response 200 (Json.arr ((listInvoices db).map invoiceToJson)) ∧
      (db.invoices = [] →
        invoicesListHandler db = HandlerOutcome.response 200 (Json.arr [])) ∧
      invoicesListHandler db ≠ HandlerOutcome.response 200 Json.null) ∧
    (invoiceRelationListHandler db invId =
        HandlerOutcome.response 200
          (Json.arr ((listProductsFromInvoice db invId).map invoiceProductToJson)) ∧
      invoiceRelationListHandler db invId ≠ HandlerOutcome.response 200 Json.null) := by
  refine ⟨⟨?_, ?_, ?_⟩, ⟨?_, ?_, ?_⟩, ⟨?_, ?_, ?_⟩, ⟨?_, ?_⟩⟩
  · simp [customersListHandler, listResponseBody_eq]
  · intro h
    simp [customersListHandler, listResponseBody_eq, listCustomers, orderByKey, h,
      List.insertionSort]
  · simp [customersListHandler, listResponseBody_eq]
  · simp [productsListHandler, listResponseBody_eq]
  · intro h
    simp [productsListHandler, listResponseBody_eq, listProducts, orderByKey, h,
      List.insertionSort]
  · simp [productsListHandler, listResponseBody_eq]
  · simp [invoicesListHandler, listResponseBody_eq]
  · intro h
    simp [invoicesListHandler, listResponseBody_eq, listInvoices, orderByKey, h,
      List.insertionSort]
  · simp [invoicesListHandler, listResponseBody_eq]
  · simp [invoiceRelationListHandler, listProductsFromInvoiceStore, listResponseBody_eq]
  · simp [invoiceRelationListHandler, listProductsFromInvoiceStore, listResponseBody_eq]

/-- Witness for the implications of the C9 theorem at the empty database. -/
theorem claim_C9_list_body_is_array_witness :
    customersListHandler ⟨[], [], [], [], 1, 1⟩ =
      HandlerOutcome.response 200 (Json.arr []) :=
  (claim_C9_list_body_is_array ⟨[], [], [], [], 1, 1⟩ 1).1.2.1 rfl

/-- C1 fails on the code: the relation-list query performs no
invoice-existence check and a `:many` query never signals no-rows, so a
nonexistent invoice (id 1 here) is answered 200 with the empty array —
the very outcome an existing invoice without items (id 2) receives — and
never the 404 the claim requires. -/
theorem claim_C1_counterexample :
    invoiceRowExists dbNoInvoiceOne 1 = false ∧
    invoiceRowExists dbNoInvoiceOne 2 = true ∧
    invoiceRelationListHandler dbNoInvoiceOne 1 =
      HandlerOutcome.response 200 (Json.arr []) ∧
    invoiceRelationListHandler dbNoInvoiceOne 2 =
      HandlerOutcome.response 200 (Json.arr []) ∧
    invoiceRelationListHandler dbNoInvoiceOne 1 ≠
      HandlerOutcome.errorText 404 "Invoice not found" := by
  refine ⟨rfl, rfl, rfl, rfl, ?_⟩
  intro h
  rw [show invoiceRelationListHandler dbNoInvoiceOne 1 =
      HandlerOutcome.response 200 (Json.arr []) from rfl] at h
  exact HandlerOutcome.noConfusion h

/-- C1 amended: the relation-list operation answers 200 with the joined
(possibly empty) array for every invoice id, existing or not; its
`sql.ErrNoRows` → 404 branch is unreachable because the store returns an
empty row slice — not a no-rows error — when no line item matches, so
"invoice has no items" and "invoice does not exist" are conflated. -/
theorem claim_C1_no_items_and_no_invoice_conflated (db : DB) (invId : Int) :
    invoiceRelationListHandler db invId =
      HandlerOutcome.response 200
        (Json.arr ((listProductsFromInvoice db invId).map invoiceProductToJson)) ∧
    (db.invoiceItems.filter (fun it => it.invoiceId == invId) = [] →
      invoiceRelationListHandler db invId = HandlerOutcome.response 200 (Json.arr [])) := by
  constructor
  · simp [invoiceRelationListHandler, listProductsFromInvoiceStore, listResponseBody_eq]
  · intro h
    have hrows : listProductsFromInvoice db invId = [] := by
      simp [listProductsFromInvoice, h, orderByKey, List.insertionSort]
    simp [invoiceRelationListHandler, listProductsFromInvoiceStore, listResponseBody_eq, hrows]

/-- Witness for the implication of the amended C1 theorem. -/
theorem claim_C1_no_items_and_no_invoice_conflated_witness :
    invoiceRelationListHandler dbNoInvoiceOne 1 =
      HandlerOutcome.response 200 (Json.arr []) :=
  (claim_C1_no_items_and_no_invoice_conflated dbNoInvoiceOne 1).2 rfl

/-- C10: after an error-free store delete, every result string other than
the entity-specific not-found value — `delete_failed` included — is
answered 204 No Content, for all four delete paths. -/
theorem claim_C10_delete_result_mapping (s : String) :
    (s ≠ "customer_not_found" → customerDeleteResult s = HandlerOutcome.noContent) ∧
    (s ≠ "product_not_found" → productDeleteResult s = HandlerOutcome.noContent) ∧
    (s ≠ "invoice_not_found" → invoiceDeleteResult s = HandlerOutcome.noContent) ∧
    (s ≠ "invoice_item_not_found" → invoiceItemDeleteResult s = HandlerOutcome.noContent) ∧
    customerDeleteResult "delete_failed" = HandlerOutcome.noContent ∧
    productDeleteResult "delete_failed" = HandlerOutcome.noContent ∧
    invoiceDeleteResult "delete_failed" = HandlerOutcome.noContent ∧
    invoiceItemDeleteResult "delete_failed" = HandlerOutcome.noContent := by
  refine ⟨?_, ?_, ?_, ?_, rfl, rfl, rfl, rfl⟩ <;> intro h <;>
    simp_all [customerDeleteResult, productDeleteResult, invoiceDeleteResult,
      invoiceItemDeleteResult]

/-- Witness for the C10 theorem at the store's `delete_failed` value. -/
theorem claim_C10_delete_result_mapping_witness :
    ("delete_failed" : String) ≠ "customer_not_found" ∧
    customerDeleteResult "delete_failed" = HandlerOutcome.noContent := by
  refine ⟨by decide, (claim_C10_delete_result_mapping "delete_failed").1 (by decide)⟩

theorem any_filter_not (p : α → Bool) (l : List α) :
    (l.filter (fun x => !(p x))).any p = false := by
  rw [List.any_eq_false]
  intro x hx
  have := (List.mem_filter.mp hx).2
  simp_all

/-- C3: each entity Delete (Customer, Product, Invoice) — embedded as the
single atomic check-then-delete statement of `query.sql` plus the
handler's mapping — yields exactly one of three outcomes: 404 when no row
with the id exists, 409 when the row exists but a dependent row
references it (with the target row still present afterwards), and 204
with the row removed otherwise. -/
theorem claim_C3_delete_trichotomy (db : DB) (cid pid iid : Int) :
    (customerRowExists db cid = false →
      customerDeleteHandler db cid =
        (HandlerOutcome.errorText 404 "Customer not found", db)) ∧
    (customerRowExists db cid = true → customerHasInvoice db cid = true →
      customerDeleteHandler db cid =
        (HandlerOutcome.errorText 409
          "cannot delete customer: customer is referenced in the invoice table", db) ∧
      customerRowExists (customerDeleteHandler db cid).2 cid = true) ∧
    (customerRowExists db cid = true → customerHasInvoice db cid = false →
      (customerDeleteHandler db cid).1 = HandlerOutcome.noContent ∧
      customerRowExists (customerDeleteHandler db cid).2 cid = false) ∧
    (productRowExists db pid = false →
      productDeleteHandler db pid =
        (HandlerOutcome.errorText 404 "Product not found", db)) ∧
    (productRowExists db pid = true → productHasInvoiceItem db pid = true →
      productDeleteHandler db pid =
        (HandlerOutcome.errorText 409
          "cannot delete product: product is referenced in the invoice_item table", db) ∧
      productRowExists (productDeleteHandler db pid).2 pid = true) ∧
    (productRowExists db pid = true → productHasInvoiceItem db pid = false →
      (productDeleteHandler db pid).1 = HandlerOutcome.noContent ∧
      productRowExists (productDeleteHandler db pid).2 pid = false) ∧
    (invoiceRowExists db iid = false →
      invoiceDeleteHandler db iid =
        (HandlerOutcome.errorText 404 "Invoice not found", db)) ∧
    (invoiceRowExists db iid = true → invoiceHasInvoiceItem db iid = true →
      invoiceDeleteHandler db iid =
        (HandlerOutcome.errorText 409
          "cannot delete invoice: invoice is referenced in the invoice_item table", db) ∧
      invoiceRowExists (invoiceDeleteHandler db iid).2 iid = true) ∧
    (invoiceRowExists db iid = true → invoiceHasInvoiceItem db iid = false →
      (invoiceDeleteHandler db iid).1 = HandlerOutcome.noContent ∧
      invoiceRowExists (invoiceDeleteHandler db iid).2 iid = false) := by
  refine ⟨?_, ?_, ?_, ?_, ?_, ?_, ?_, ?_, ?_⟩
  · intro h
    simp [customerDeleteHandler, deleteCustomer, customerDeleteResult, h]
  · intro h1 h2
    simp [customerDeleteHandler, deleteCustomer, classifyDeleteCustomerError, h1, h2]
  · intro h1 h2
    refine ⟨?_, ?_⟩
    · simp [customerDeleteHandler, deleteCustomer, customerDeleteResult, h1, h2]
    · simp only [customerDeleteHandler, deleteCustomer, h1, h2]
      simp [customerRowExists, any_filter_not (fun c : Customer => c.id == cid)]
  · intro h
    simp [productDeleteHandler, deleteProduct, productDeleteResult, h]
  · intro h1 h2
    simp [productDeleteHandler, deleteProduct, classifyDeleteProductError, h1, h2]
  · intro h1 h2
    refine ⟨?_, ?_⟩
    · simp [productDeleteHandler, deleteProduct, productDeleteResult, h1, h2]
    · simp only [productDeleteHandler, deleteProduct, h1, h2]
      simp [productRowExists, any_filter_not (fun p : Product => p.id == pid)]
  · intro h
    simp [invoiceDeleteHandler, deleteInvoice, invoiceDeleteResult, h]
  · intro h1 h2
    simp [invoiceDeleteHandler, deleteInvoice, classifyDeleteInvoiceError, h1, h2]
  · intro h1 h2
    refine ⟨?_, ?_⟩
    · simp [invoiceDeleteHandler, deleteInvoice, invoiceDeleteResult, h1, h2]
    · simp only [invoiceDeleteHandler, deleteInvoice, h1, h2]
      simp [invoiceRowExists, any_filter_not (fun i : Invoice => i.id == iid)]

/-- Witness for the C3 theorem: the three 409 cases and a 404 case at a
concrete database. -/
theorem claim_C3_delete_trichotomy_witness :
    customerDeleteHandler dbAllReferenced 1 =
      (HandlerOutcome.errorText 409
        "cannot delete customer: customer is referenced in the invoice table",
        dbAllReferenced) ∧
    productDeleteHandler dbAllReferenced 1 =
      (HandlerOutcome.errorText 409
        "cannot delete product: product is referenced in the invoice_item table",
        dbAllReferenced) ∧
    invoiceDeleteHandler dbAllReferenced 1 =
      (HandlerOutcome.errorText 409
        "cannot delete invoice: invoice is referenced in the invoice_item table",
        dbAllReferenced) ∧
    customerDeleteHandler dbAllReferenced 5 =
      (HandlerOutcome.errorText 404 "Customer not found", dbAllReferenced) := by
  have h := claim_C3_delete_trichotomy dbAllReferenced 1 1 1
  have h5 := claim_C3_delete_trichotomy dbAllReferenced 5 1 1
  exact ⟨(h.2.1 rfl rfl).1, (h.2.2.2.2.1 rfl rfl).1, (h.2.2.2.2.2.2.2.1 rfl rfl).1,
    h5.1 rfl⟩

/-- C4: the invoice-item upsert maps store failures by constraint
identity — the product-side foreign key and the invoice-side foreign key,
both of SQLSTATE class 23503, each get their own 404 — while the same
23503 class on the invoice-create path maps to 400, so the class alone
does not determine the status; and a request with count ≤ 0 is rejected
400 before the store is called. -/
theorem claim_C4_constraint_identity_mapping (db : DB) (invId prodId cnt : Int) :
    (cnt ≤ 0 →
      invoiceItemUpsertHandler db invId prodId cnt =
        (HandlerOutcome.errorText 400 "count must be greater than 0", db)) ∧
    classifyAddProductToInvoiceError ⟨"23503", "invoice_item_product_id_fkey"⟩ =
      HandlerOutcome.errorText 404 "The provided product does not exist" ∧
    classifyAddProductToInvoiceError ⟨"23503", "invoice_item_invoice_id_fkey"⟩ =
      HandlerOutcome.errorText 404 "The provided invoice does not exist" ∧
    classifyCreateInvoiceError ⟨"23503", "invoice_customer_id_fkey"⟩ =
      HandlerOutcome.errorText 400 "Specified customer does not exist" ∧
    (0 < cnt → db.invoiceItems.find? (isPair invId prodId) = none →
      invoiceRowExists db invId = true → productRowExists db prodId = false →
      invoiceItemUpsertHandler db invId prodId cnt =
        (HandlerOutcome.errorText 404 "The provided product does not exist", db)) ∧
    (0 < cnt → db.invoiceItems.find? (isPair invId prodId) = none →
      invoiceRowExists db invId = false →
      invoiceItemUpsertHandler db invId prodId cnt =
        (HandlerOutcome.errorText 404 "The provided invoice does not exist", db)) := by
  refine ⟨?_, rfl, rfl, rfl, ?_, ?_⟩
  · intro h
    simp [invoiceItemUpsertHandler, h]
  · intro hc hfind hinv hprod
    rw [invoiceItemUpsertHandler, if_neg (by omega)]
    rw [addProductToInvoice, if_neg (by omega), hfind]
    simp [hinv, hprod, classifyAddProductToInvoiceError]
  · intro hc hfind hinv
    rw [invoiceItemUpsertHandler, if_neg (by omega)]
    rw [addProductToInvoice, if_neg (by omega), hfind]
    simp [hinv, classifyAddProductToInvoiceError]

/-- Witness for the C4 theorem: the product-side 404 and the count ≤ 0
rejection at concrete inputs. -/
theorem claim_C4_constraint_identity_mapping_witness :
    invoiceItemUpsertHandler dbInvoiceNoProduct 1 1 5 =
      (HandlerOutcome.errorText 404 "The provided product does not exist",
        dbInvoiceNoProduct) ∧
    invoiceItemUpsertHandler dbInvoiceNoProduct 1 1 0 =
      (HandlerOutcome.errorText 400 "count must be greater than 0",
        dbInvoiceNoProduct) := by
  have h5 := claim_C4_constraint_identity_mapping dbInvoiceNoProduct 1 1 5
  have h0 := claim_C4_constraint_identity_mapping dbInvoiceNoProduct 1 1 0
  exact ⟨h5.2.2.2.2.1 (by decide) rfl rfl rfl, h0.1 (by decide)⟩

/-- C5 fails on the code: on the PATCH `/products/{id}` branch only the
`available_items` check constraint is translated; the price check
constraint (SQLSTATE 23514, constraint `product_price_check`) falls
through to the 500 internal-error response instead of a 400 validation
error. -/
theorem claim_C5_counterexample :
    classifyUpdateProductError ⟨"23514", "product_price_check"⟩ =
      HandlerOutcome.errorText 500 "Internal server error" ∧
    classifyUpdateProductError ⟨"23514", "product_price_check"⟩ ≠
      HandlerOutcome.errorText 400 "price should be a positive number" := by
  refine ⟨rfl, ?_⟩
  intro h
  rw [show classifyUpdateProductError ⟨"23514", "product_price_check"⟩ =
      HandlerOutcome.errorText 500 "Internal server error" from rfl] at h
  simp at h

/-- C5 amended: on Create both product check constraints map to 400 — the
`available_items` one with the exact pre-validation message, the price
one with a message ("price should be a positive number") the
pre-validation can never produce, since it only parses the price and does
not check its sign; on Update only the `available_items` check constraint
maps to 400, and the price check constraint is answered 500. -/
theorem claim_C5_check_constraint_mapping :
    classifyCreateProductError ⟨"23514", "product_available_items_check"⟩ =
      HandlerOutcome.errorText 400 "available_items must be greater than or equal to 0" ∧
    productPreValidate ⟨"Mouse", "", "222", -1⟩ =
      some "available_items must be greater than or equal to 0" ∧
    classifyCreateProductError ⟨"23514", "product_price_check"⟩ =
      HandlerOutcome.errorText 400 "price should be a positive number" ∧
    (∀ req : ProductReq,
      productPreValidate req ≠ some "price should be a positive number") ∧
    classifyUpdateProductError ⟨"23514", "product_available_items_check"⟩ =
      HandlerOutcome.errorText 400 "available_items must be greater than or equal to 0" ∧
    classifyUpdateProductError ⟨"23514", "product_price_check"⟩ = internalError := by
  refine ⟨rfl, rfl, rfl, ?_, rfl, rfl⟩
  intro req h
  rw [productPreValidate] at h
  split at h
  · simp at h
  · split at h
    · simp at h
    · split at h
      · simp at h
      · split at h
        · simp at h
        · simp at h

/-- Witness for the amended C5 theorem: the pre-validation of a concrete
valid-price payload never emits the store-mapped price message. -/
theorem claim_C5_check_constraint_mapping_witness :
    productPreValidate ⟨"Mouse", "", "222", -1⟩ ≠
      some "price should be a positive number" :=
  claim_C5_check_constraint_mapping.2.2.2.1 ⟨"Mouse", "", "222", -1⟩

/-- C6 fails on the code: a path with an extra unrecognized segment after
the invoice identifier (here `/api/v1/invoices/5/foo`) is not answered
NotFound — the handler falls through to the single-invoice branch and
dispatches the GET to the single-invoice read for id 5. -/
theorem claim_C6_counterexample :
    dispatchInvoicePath Method.get "/api/v1/invoices/5/foo" =
      InvoiceDispatch.itemGet 5 ∧
    dispatchInvoicePath Method.get "/api/v1/invoices/5/foo" ≠
      InvoiceDispatch.notFound := by
  refine ⟨rfl, ?_⟩
  intro h
  rw [show dispatchInvoicePath Method.get "/api/v1/invoices/5/foo" =
      InvoiceDispatch.itemGet 5 from rfl] at h
  exact InvoiceDispatch.noConfusion h

/-- C6 amended: under the `/api/v1/invoices` mount, a path whose segment
immediately after the invoice identifier is not `products` is dispatched
to the single-invoice operation selected by the method (any further
segments are ignored), not to NotFound; only a `products` path with two
or more further segments yields NotFound; and `products` with no
following identifier resolves to the relation list for GET and to
MethodNotAllowed for every other method. -/
theorem claim_C6_dispatch_shapes (m : Method) (idStr : String) (invId : Int)
    (rest : List String) (hid : parseIntGo idStr = some invId) :
    (∀ s rest2, rest = s :: rest2 → s ≠ "products" →
      dispatchInvoiceSegs m (["api", "v1", "invoices", idStr] ++ rest) =
        (match m with
         | Method.get => InvoiceDispatch.itemGet invId
         | Method.patch => InvoiceDispatch.itemPatch invId
         | Method.delete => InvoiceDispatch.itemDelete invId
         | _ => InvoiceDispatch.methodNotAllowed)) ∧
    (∀ p q rest2, rest = "products" :: p :: q :: rest2 →
      dispatchInvoiceSegs m (["api", "v1", "invoices", idStr] ++ rest) =
        InvoiceDispatch.notFound) ∧
    (rest = ["products"] → m = Method.get →
      dispatchInvoiceSegs m (["api", "v1", "invoices", idStr] ++ rest) =
        InvoiceDispatch.relationList invId) ∧
    (rest = ["products"] → m ≠ Method.get →
      dispatchInvoiceSegs m (["api", "v1", "invoices", idStr] ++ rest) =
        InvoiceDispatch.methodNotAllowed) := by
  refine ⟨?_, ?_, ?_, ?_⟩
  · intro s rest2 hrest hs
    subst hrest
    have hidx : findInvoicesIdx (["api", "v1", "invoices", idStr] ++ s :: rest2) =
        some 2 := rfl
    have hg1 : (["api", "v1", "invoices", idStr] ++ s :: rest2).getD (2 + 1) "" =
        idStr := rfl
    have hg2 : (["api", "v1", "invoices", idStr] ++ s :: rest2).getD (2 + 2) "" =
        s := rfl
    simp only [dispatchInvoiceSegs, hidx]
    rw [if_neg (by
      simp only [List.cons_append, List.length_cons, List.length_append]
      omega)]
    simp only [hg1, hid]
    rw [if_neg (by
      intro hc
      rw [hg2] at hc
      exact hs hc.2)]
  · intro p q rest2 hrest
    subst hrest
    have hidx : findInvoicesIdx
        (["api", "v1", "invoices", idStr] ++ "products" :: p :: q :: rest2) =
        some 2 := rfl
    have hg1 : (["api", "v1", "invoices", idStr] ++
        "products" :: p :: q :: rest2).getD (2 + 1) "" = idStr := rfl
    have hg2 : (["api", "v1", "invoices", idStr] ++
        "products" :: p :: q :: rest2).getD (2 + 2) "" = "products" := rfl
    simp only [dispatchInvoiceSegs, hidx]
    rw [if_neg (by
      simp only [List.cons_append, List.length_cons, List.length_append]
      omega)]
    simp only [hg1, hid]
    have hcnd : 2 + 2 <
        (["api", "v1", "invoices", idStr] ++ "products" :: p :: q :: rest2).length ∧
        (["api", "v1", "invoices", idStr] ++
          "products" :: p :: q :: rest2).getD (2 + 2) "" = "products" := by
      refine ⟨?_, hg2⟩
      simp only [List.cons_append, List.length_cons, List.length_append]
      omega
    rw [if_pos hcnd]
    rw [if_neg (by
      simp only [List.cons_append, List.length_cons, List.length_append]
      omega)]
    rw [if_neg (by
      simp only [List.cons_append, List.length_cons, List.length_append]
      omega)]
  · intro hrest hm
    subst hrest
    subst hm
    have hnorm : dispatchInvoiceSegs Method.get
        (["api", "v1", "invoices", idStr] ++ ["products"]) =
        (match parseIntGo idStr with
         | none => InvoiceDispatch.invalidInvoiceId
         | some n => InvoiceDispatch.relationList n) := rfl
    rw [hnorm, hid]
  · intro hrest hm
    subst hrest
    have hnorm : ∀ mm : Method, dispatchInvoiceSegs mm
        (["api", "v1", "invoices", idStr] ++ ["products"]) =
        (match parseIntGo idStr with
         | none => InvoiceDispatch.invalidInvoiceId
         | some n =>
            match mm with
            | Method.get => InvoiceDispatch.relationList n
            | _ => InvoiceDispatch.methodNotAllowed) := fun mm => rfl
    rw [hnorm m, hid]
    cases m with
    | get => exact absurd rfl hm
    | post => rfl
    | patch => rfl
    | delete => rfl
    | other => rfl

/-- Witness for the amended C6 theorem: a concrete non-`products` extra
segment dispatches to the single-invoice GET. -/
theorem claim_C6_dispatch_shapes_witness :
    parseIntGo "7" = some 7 ∧
    dispatchInvoiceSegs Method.get (["api", "v1", "invoices", "7"] ++ ["foo"]) =
      InvoiceDispatch.itemGet 7 := by
  refine ⟨rfl, ?_⟩
  exact (claim_C6_dispatch_shapes Method.get "7" 7 ["foo"] rfl).1 "foo" [] rfl (by decide)

/-- C7: the Invoice Create handler rejects, with 400 and the database
untouched (the store is reached only after both checks pass), an invoice
number that trims to empty and then a customer id ≤ 0; when the store
insert succeeds, the created invoice carries the supplied date unchanged
unless the date was omitted (nil pointer or the zero time), in which case
it carries the current time `now`. -/
theorem claim_C7_invoice_create (db : DB) (now : Int) (req : CreateInvoiceReq) :
    (trimSpaceGo req.invoiceNumber = "" →
      invoicesCreateHandler db now req =
        (HandlerOutcome.errorText 400 "invoice_number must not be empty", db)) ∧
    (trimSpaceGo req.invoiceNumber ≠ "" → req.customerId ≤ 0 →
      invoicesCreateHandler db now req =
        (HandlerOutcome.errorText 400 "customer_id should be a positive number", db)) ∧
    (trimSpaceGo req.invoiceNumber ≠ "" → 0 < req.customerId →
      invoiceNumberTaken db req.invoiceNumber = false →
      customerRowExists db req.customerId = true →
      ∃ inv db2,
        invoicesCreateHandler db now req =
          (HandlerOutcome.response 201 (invoiceToJson inv), db2) ∧
        inv.invoiceNumber = req.invoiceNumber ∧
        inv.customerId = req.customerId ∧
        db2.invoices = db.invoices ++ [inv] ∧
        ((req.invoiceDate = none ∨ req.invoiceDate = some 0) → inv.invoiceDate = now) ∧
        (∀ d, req.invoiceDate = some d → d ≠ 0 → inv.invoiceDate = d)) := by
  refine ⟨?_, ?_, ?_⟩
  · intro h
    simp [invoicesCreateHandler, h]
  · intro h1 h2
    rw [invoicesCreateHandler, if_neg (by simp [h1]), if_pos h2]
  · intro h1 h2 h3 h4
    rw [invoicesCreateHandler, if_neg (by simp [h1]), if_neg (by omega)]
    simp only [createInvoice, h3, h4]
    refine ⟨_, _, rfl, rfl, rfl, rfl, ?_, ?_⟩
    · intro hd
      rcases hd with hd | hd <;> simp [hd]
    · intro d hd hdz
      simp [hd, hdz]

/-- A one-customer database for the C7 witness. -/
theorem claim_C7_invoice_create_witness :
    trimSpaceGo "INV-1" ≠ "" ∧
    (∃ inv db2,
      invoicesCreateHandler ⟨[⟨1, "Jarred", "Black"⟩], [], [], [], 1, 1⟩ 42
          ⟨"INV-1", none, 1⟩ =
        (HandlerOutcome.response 201 (invoiceToJson inv), db2) ∧
      inv.invoiceNumber = "INV-1" ∧
      inv.customerId = 1 ∧
      db2.invoices = [] ++ [inv] ∧
      (((⟨"INV-1", none, 1⟩ : CreateInvoiceReq).invoiceDate = none ∨
          (⟨"INV-1", none, 1⟩ : CreateInvoiceReq).invoiceDate = some 0) →
        inv.invoiceDate = 42) ∧
      (∀ d, (⟨"INV-1", none, 1⟩ : CreateInvoiceReq).invoiceDate = some d → d ≠ 0 →
        inv.invoiceDate = d)) := by
  refine ⟨by decide, ?_⟩
  exact (claim_C7_invoice_create ⟨[⟨1, "Jarred", "Black"⟩], [], [], [], 1, 1⟩ 42
    ⟨"INV-1", none, 1⟩).2.2 (by decide) (by decide) rfl rfl

theorem isPair_update_count (inv prod c : Int) (x : InvoiceItem) :
    isPair inv prod { x with count := c } = isPair inv prod x := rfl

theorem map_update_eq_of_none (inv prod c : Int) (l : List InvoiceItem)
    (h : ∀ x ∈ l, ¬ (isPair inv prod x = true)) :
    l.map (fun x => if isPair inv prod x then { x with count := c } else x) = l := by
  conv_rhs => rw [← List.map_id l]
  apply List.map_congr_left
  intro a ha
  simp [h a ha]

theorem countP_map_update (inv prod c : Int) (l : List InvoiceItem) :
    (l.map (fun x => if isPair inv prod x then { x with count := c } else x)).countP
      (isPair inv prod) = l.countP (isPair inv prod) := by
  rw [List.countP_map]
  apply List.countP_congr
  intro x hx
  by_cases h : isPair inv prod x = true
  · simp [Function.comp_apply, h, isPair_update_count]
  · simp [Function.comp_apply, h]

theorem mem_map_update (inv prod c : Int) (l : List InvoiceItem) :
    ∀ x ∈ l.map (fun y => if isPair inv prod y then { y with count := c } else y),
      isPair inv prod x = true → x.count = c := by
  intro x hx hp
  obtain ⟨y, hy, rfl⟩ := List.mem_map.mp hx
  by_cases h : isPair inv prod y = true
  · rw [if_pos h]
  · rw [if_neg h] at hp
    exact absurd hp h

/-- C2: the invoice-item Upsert with count > 0 replaces the count of an
existing (invoice, product) row in place — same number of rows, still
exactly one row for the pair, and every row of the pair carries the new
count — and, starting from a state without the pair (both referenced rows
existing), running the same Upsert twice returns the very same state as
running it once: exactly one line item with the upserted count, never
two rows. -/
theorem claim_C2_upsert_replace_idempotent (db : DB) (invId prodId cnt : Int)
    (hcnt : 0 < cnt) :
    (db.invoiceItems.countP (isPair invId prodId) = 1 →
      ∃ it db2, addProductToInvoice db invId prodId cnt = .ok (it, db2) ∧
        it.count = cnt ∧
        db2.invoiceItems.length = db.invoiceItems.length ∧
        db2.invoiceItems.countP (isPair invId prodId) = 1 ∧
        ∀ x ∈ db2.invoiceItems, isPair invId prodId x = true → x.count = cnt) ∧
    (db.invoiceItems.countP (isPair invId prodId) = 0 →
      invoiceRowExists db invId = true → productRowExists db prodId = true →
      ∃ it db2 it2, addProductToInvoice db invId prodId cnt = .ok (it, db2) ∧
        addProductToInvoice db2 invId prodId cnt = .ok (it2, db2) ∧
        db2.invoiceItems.countP (isPair invId prodId) = 1 ∧
        ∀ x ∈ db2.invoiceItems, isPair invId prodId x = true → x.count = cnt) := by
  constructor
  · intro h1
    have hpos : 0 < db.invoiceItems.countP (isPair invId prodId) := by omega
    have hex : ∃ x ∈ db.invoiceItems, isPair invId prodId x = true :=
      List.countP_pos_iff.mp hpos
    obtain ⟨it0, hit0⟩ := Option.isSome_iff_exists.mp (List.find?_isSome.mpr hex)
    refine ⟨{ it0 with count := cnt },
      { db with invoiceItems := db.invoiceItems.map (fun x => if isPair invId prodId x then { x with count := cnt } else x) },
      ?_, rfl, ?_, ?_, ?_⟩
    · rw [addProductToInvoice, if_neg (by omega), hit0]
    · exact List.length_map _ _
    · exact (countP_map_update invId prodId cnt db.invoiceItems).trans h1
    · exact mem_map_update invId prodId cnt db.invoiceItems
  · intro h0 hinv hprod
    have hzero : ∀ x ∈ db.invoiceItems, ¬ (isPair invId prodId x = true) :=
      List.countP_eq_zero.mp h0
    have hnone : db.invoiceItems.find? (isPair invId prodId) = none :=
      List.find?_eq_none.mpr hzero
    have hpnew : isPair invId prodId ⟨db.itemSeq, invId, prodId, cnt⟩ = true := by
      simp [isPair]
    refine ⟨⟨db.itemSeq, invId, prodId, cnt⟩,
      { db with
          invoiceItems := db.invoiceItems ++ [⟨db.itemSeq, invId, prodId, cnt⟩],
          itemSeq := db.itemSeq + 1 },
      ⟨db.itemSeq, invId, prodId, cnt⟩, ?_, ?_, ?_, ?_⟩
    · rw [addProductToInvoice, if_neg (by omega), hnone]
      simp [hinv, hprod]
    · have hfind2 : ((db.invoiceItems ++
          [(⟨db.itemSeq, invId, prodId, cnt⟩ : InvoiceItem)]).find?
            (isPair invId prodId)) = some ⟨db.itemSeq, invId, prodId, cnt⟩ := by
        rw [List.find?_append, hnone]
        simp [List.find?_cons, hpnew]
      have hmap : (db.invoiceItems ++
          [(⟨db.itemSeq, invId, prodId, cnt⟩ : InvoiceItem)]).map
            (fun x => if isPair invId prodId x then { x with count := cnt } else x) =
          db.invoiceItems ++ [⟨db.itemSeq, invId, prodId, cnt⟩] := by
        rw [List.map_append, map_update_eq_of_none invId prodId cnt _ hzero]
        simp [hpnew]
      have hcle : ¬ (cnt ≤ 0) := by omega
      simp only [addProductToInvoice, hfind2, if_neg hcle, hmap]
    · show (db.invoiceItems ++
          [(⟨db.itemSeq, invId, prodId, cnt⟩ : InvoiceItem)]).countP
            (isPair invId prodId) = 1
      rw [List.countP_append, h0]
      simp [List.countP_cons, hpnew]
    · intro x hx hp
      have hx2 : x ∈ db.invoiceItems ++
          [(⟨db.itemSeq, invId, prodId, cnt⟩ : InvoiceItem)] := hx
      rcases List.mem_append.mp hx2 with h | h
      · exact absurd hp (hzero x h)
      · rcases List.mem_singleton.mp h with rfl
        rfl

/-- Witness for the C2 theorem: the double Upsert with count 5 at a
concrete one-invoice, one-product database. -/
theorem claim_C2_upsert_replace_idempotent_witness :
    (0 : Int) < 5 ∧
    (∃ it db2 it2,
      addProductToInvoice dbUpsertReady 1 1 5 = .ok (it, db2) ∧
      addProductToInvoice db2 1 1 5 = .ok (it2, db2) ∧
      db2.invoiceItems.countP (isPair 1 1) = 1 ∧
      ∀ x ∈ db2.invoiceItems, isPair 1 1 x = true → x.count = 5) := by
  refine ⟨by decide, ?_⟩
  exact (claim_C2_upsert_replace_idempotent dbUpsertReady 1 1 5 (by decide)).2
    rfl rfl rfl
